import Mathlib

/-!
Shallow embedding of `src/esp-wifi/examples/embassy_dhcp.rs`.

The example contains two asynchronous tasks:
* `connection` — the Connectivity Supervisor: an infinite loop that waits
  for disassociation while connected, performs a one-time `device.start()`
  guarded by the local `is_started` flag, applies the client configuration
  with `set_configuration(..).unwrap()`, attempts `device.connect()`, and
  sleeps 1000 ms before the next iteration;
* `task` — the Network Client Loop: polls `stack.config()` every 500 ms
  until an address is present, then repeatedly opens a TCP socket, connects
  to `(142.250.185.115, 80)`, and runs an inner write/read exchange loop.

External collaborators (radio layer, network stack, TCP transport) are
modelled as per-iteration oracles: each loop iteration consumes one
environment record carrying the outcomes the collaborators would return.
Each task is embedded as a function from a finite list of such records (an
observed prefix of the infinite execution) to the list of observable events
it emits, together with a flag recording whether the task is still alive
(a Rust `unwrap()` of an `Err` panics and ends the task).
-/

namespace EmbassyDhcp

/-- Model of `esp_wifi::wifi::WifiState` as returned by `get_wifi_state`.
The example only distinguishes `StaConnected` from every other state. -/
inductive WifiState
  | StaStarted
  | StaConnected
  | StaDisconnected
  | Invalid
deriving DecidableEq

/-- Model of `Result<(), E>` for the fallible collaborator operations;
the opaque error payload is coded as a `Nat`. -/
inductive OpResult
  | ok
  | err (e : Nat)
deriving DecidableEq

/-- Per-iteration oracle for the Supervisor loop: the wifi state reported
by `get_wifi_state()` and the outcomes the radio layer would return for
`start`, `set_configuration` and `connect` on this iteration. -/
structure SupEnv where
  wifiState : WifiState
  startResult : OpResult
  setConfigResult : OpResult
  connectResult : OpResult
deriving DecidableEq

/-- Observable events of one Supervisor (`connection` task) iteration,
in program order. `panicked` records an `unwrap()` of an `Err`. -/
inductive SupEvent
  | awaitDisconnect
  | printState (s : WifiState)
  | startWifi (r : OpResult)
  | setConfiguration (ssid password : String) (r : OpResult)
  | getCapabilities
  | connectAttempt (r : OpResult)
  | retryDelay (ms : Nat)
  | panicked
deriving DecidableEq

/-- The tail of a `connection`-loop iteration after the `is_started`
check: `set_configuration(..).unwrap()`, the capabilities print, the
`connect` attempt (whose failure is only printed), and the 1000 ms timer.
`evs` are the events already emitted earlier in the iteration. -/
def afterStart (ssid password : String) (env : SupEnv) (evs : List SupEvent) :
    List SupEvent × Option Bool :=
  match env.setConfigResult with
  | OpResult.err e =>
      (evs ++ [SupEvent.setConfiguration ssid password (OpResult.err e), SupEvent.panicked],
       none)
  | OpResult.ok =>
      (evs ++ [SupEvent.setConfiguration ssid password OpResult.ok,
               SupEvent.getCapabilities,
               SupEvent.connectAttempt env.connectResult,
               SupEvent.retryDelay 1000],
       some true)

/-- One iteration of the `connection` loop, lines 126-157 of the example:
match on the wifi state (await disconnection if `StaConnected`, else print
the state), then the one-time start guarded by `is_started`, then the
configuration / connect / delay tail. Returns the events of the iteration
and `some is_started'` if the task is still alive, `none` if it panicked. -/
def connectionStep (ssid password : String) (env : SupEnv) (is_started : Bool) :
    List SupEvent × Option Bool :=
  let evState :=
    match env.wifiState with
    | WifiState.StaConnected => [SupEvent.awaitDisconnect]
    | s => [SupEvent.printState s]
  if is_started then
    afterStart ssid password env evState
  else
    match env.startResult with
    | OpResult.ok =>
        afterStart ssid password env (evState ++ [SupEvent.startWifi OpResult.ok])
    | OpResult.err e =>
        (evState ++ [SupEvent.startWifi (OpResult.err e), SupEvent.panicked], none)

/-- Run of the `connection` task over an observed prefix of iterations,
threading the `is_started` flag (initially `false`) and stopping early if
an iteration panics. Returns the concatenated events and `some flag` when
the task is still alive after the prefix. -/
def connectionRun (ssid password : String) :
    List SupEnv → Bool → List SupEvent × Option Bool
  | [], st => ([], some st)
  | env :: rest, st =>
    match connectionStep ssid password env st with
    | (evs, none) => (evs, none)
    | (evs, some st') =>
        let r := connectionRun ssid password rest st'
        (evs ++ r.1, r.2)

/-- Recognizes an invocation of the interface start operation. -/
def isStartEvent : SupEvent → Bool
  | SupEvent.startWifi _ => true
  | _ => false

/-- Recognizes the fixed retry delay at the end of an iteration. -/
def isRetryDelay : SupEvent → Bool
  | SupEvent.retryDelay _ => true
  | _ => false

/-- Recognizes an application of exactly the configured credentials. -/
def isSetConfigEvent (ssid password : String) : SupEvent → Bool
  | SupEvent.setConfiguration s p _ => if s = ssid ∧ p = password then true else false
  | _ => false

/-- Environment well-formedness for the radio collaborator, relative to a
flag recording whether some earlier connect attempt succeeded: the radio
layer reports `StaConnected` only after a successful connect. -/
def consistentFrom : Bool → List SupEnv → Bool
  | _, [] => true
  | connected, env :: rest =>
      (if env.wifiState = WifiState.StaConnected then connected else true) &&
      consistentFrom (connected || (if env.connectResult = OpResult.ok then true else false)) rest

/-- Network configuration snapshot returned by `stack.config()`; the
example only uses the presence of the assigned address. -/
structure NetConfig where
  address : Nat
deriving DecidableEq

/-- The fixed remote endpoint of the client loop:
`(Ipv4Address::new(142, 250, 185, 115), 80)`. -/
structure Endpoint where
  a0 : Nat
  a1 : Nat
  a2 : Nat
  a3 : Nat
  port : Nat
deriving DecidableEq

def remote_endpoint : Endpoint := ⟨142, 250, 185, 115, 80⟩

/-- The fixed request payload written each inner-loop iteration. -/
def request_payload : String := "GET / HTTP/1.0\r\nHost: www.mobile-j.de\r\n\r\n"

/-- Model of `socket.read(&mut buf)`: `Result<usize, Error>` together with
the bytes placed in the buffer; `ok []` is Rust's `Ok(0)` (clean close). -/
inductive ReadOutcome
  | ok (bytes : List Nat)
  | err (e : Nat)
deriving DecidableEq

/-- Per-iteration oracle of the inner exchange loop: the outcome of
`write_all` and, if reached, of `read`. -/
structure ExchEnv where
  writeResult : OpResult
  readResult : ReadOutcome
deriving DecidableEq

/-- Per-cycle oracle of the client loop: the outcome of
`socket.connect(remote_endpoint)` and the oracles of the inner loop. -/
structure CycleEnv where
  connectResult : OpResult
  exch : List ExchEnv
deriving DecidableEq

/-- Observable events of the client `task`, in program order. -/
inductive ClientEvent
  | pollDelay (ms : Nat)
  | gotIp (cfg : NetConfig)
  | pacingDelay (ms : Nat)
  | openSocket
  | setTimeout (secs : Nat)
  | connectAttempt (ep : Endpoint) (r : OpResult)
  | connectError (e : Nat)
  | connected
  | writeAll (payload : String) (r : OpResult)
  | writeError (e : Nat)
  | readEOF
  | readError (e : Nat)
  | printBody (bytes : List Nat)
  | panicked
deriving DecidableEq

/-- Validity of a byte sequence as UTF-8, exactly the acceptance condition
of Rust's `core::str::from_utf8`: ASCII; two-byte sequences `C2..DF` with
one continuation; three-byte sequences `E0..EF` with the narrowed second
byte for `E0` (no overlongs) and `ED` (no surrogates); four-byte sequences
`F0..F4` with the narrowed second byte for `F0` and `F4` (≤ U+10FFFF);
continuation bytes are `80..BF`. -/
def validUtf8 : List Nat → Bool
  | [] => true
  | b :: rest =>
    if b ≤ 0x7F then validUtf8 rest
    else if 0xC2 ≤ b ∧ b ≤ 0xDF then
      match rest with
      | c1 :: rest2 => (0x80 ≤ c1 && c1 ≤ 0xBF) && validUtf8 rest2
      | [] => false
    else if 0xE0 ≤ b ∧ b ≤ 0xEF then
      match rest with
      | c1 :: c2 :: rest3 =>
          (if b = 0xE0 then 0xA0 ≤ c1 && c1 ≤ 0xBF
           else if b = 0xED then 0x80 ≤ c1 && c1 ≤ 0x9F
           else 0x80 ≤ c1 && c1 ≤ 0xBF) &&
          (0x80 ≤ c2 && c2 ≤ 0xBF) && validUtf8 rest3
      | _ => false
    else if 0xF0 ≤ b ∧ b ≤ 0xF4 then
      match rest with
      | c1 :: c2 :: c3 :: rest4 =>
          (if b = 0xF0 then 0x90 ≤ c1 && c1 ≤ 0xBF
           else if b = 0xF4 then 0x80 ≤ c1 && c1 ≤ 0x8F
           else 0x80 ≤ c1 && c1 ≤ 0xBF) &&
          (0x80 ≤ c2 && c2 ≤ 0xBF) && (0x80 ≤ c3 && c3 ≤ 0xBF) && validUtf8 rest4
      | _ => false
    else false

/-- How the inner exchange loop of a cycle ended. `exhausted` marks the
oracle prefix running out mid-connection (truncated observation);
`panicked` marks the `from_utf8(..).unwrap()` panic on invalid UTF-8. -/
inductive InnerExit
  | writeFail
  | eof
  | readFail
  | exhausted
  | panicked
deriving DecidableEq

/-- The inner exchange loop, lines 223-244 of the example: write the fixed
request in full (break on failure), read into the buffer (`Ok(0)` breaks
as EOF, an error breaks with a report), and print the bytes decoded with
`core::str::from_utf8(..).unwrap()` before repeating. -/
def innerLoop : List ExchEnv → List ClientEvent × InnerExit
  | [] => ([], InnerExit.exhausted)
  | env :: rest =>
    match env.writeResult with
    | OpResult.err e =>
        ([ClientEvent.writeAll request_payload (OpResult.err e), ClientEvent.writeError e],
         InnerExit.writeFail)
    | OpResult.ok =>
      match env.readResult with
      | ReadOutcome.ok [] =>
          ([ClientEvent.writeAll request_payload OpResult.ok, ClientEvent.readEOF],
           InnerExit.eof)
      | ReadOutcome.ok (b :: bs) =>
          if validUtf8 (b :: bs) then
            (ClientEvent.writeAll request_payload OpResult.ok ::
               ClientEvent.printBody (b :: bs) :: (innerLoop rest).1,
             (innerLoop rest).2)
          else
            ([ClientEvent.writeAll request_payload OpResult.ok, ClientEvent.panicked],
             InnerExit.panicked)
      | ReadOutcome.err e =>
          ([ClientEvent.writeAll request_payload OpResult.ok, ClientEvent.readError e],
           InnerExit.readFail)

/-- Whether a client-loop cycle completed and control reached the top of
the outer loop again (`done`), or the task died (`panicked`), or the
observed oracle prefix ended mid-cycle (`truncated`). -/
inductive CycleStatus
  | done
  | panicked
  | truncated
deriving DecidableEq

/-- The events every cycle starts with, lines 208-216: the top-of-loop
1000 ms delay, socket creation, the 10 s idle timeout, and the connect
attempt to the fixed endpoint. -/
def cyclePrefix (r : OpResult) : List ClientEvent :=
  [ClientEvent.pacingDelay 1000, ClientEvent.openSocket, ClientEvent.setTimeout 10,
   ClientEvent.connectAttempt remote_endpoint r]

/-- One cycle of the client loop, lines 208-245: on connect failure the
error is printed and the cycle is abandoned (`continue`, skipping the
bottom delay); on success the inner exchange loop runs and, unless it
panicked, the bottom-of-loop 1000 ms delay follows. -/
def cycleRun (env : CycleEnv) : List ClientEvent × CycleStatus :=
  match env.connectResult with
  | OpResult.err e =>
      (cyclePrefix (OpResult.err e) ++ [ClientEvent.connectError e], CycleStatus.done)
  | OpResult.ok =>
    match (innerLoop env.exch).2 with
    | InnerExit.panicked =>
        (cyclePrefix OpResult.ok ++ ClientEvent.connected :: (innerLoop env.exch).1,
         CycleStatus.panicked)
    | InnerExit.exhausted =>
        (cyclePrefix OpResult.ok ++ ClientEvent.connected :: (innerLoop env.exch).1,
         CycleStatus.truncated)
    | _ =>
        (cyclePrefix OpResult.ok ++ ClientEvent.connected :: (innerLoop env.exch).1
           ++ [ClientEvent.pacingDelay 1000],
         CycleStatus.done)

/-- The outer loop of the client task over an observed prefix of cycles:
each completed cycle is followed by the next; a panic or a truncated
observation ends the trace. -/
def cyclesRun : List CycleEnv → List ClientEvent
  | [] => []
  | env :: rest =>
    match cycleRun env with
    | (evs, CycleStatus.done) => evs ++ cyclesRun rest
    | (evs, _) => evs

/-- The readiness-wait loop, lines 199-205: poll `stack.config()`; when it
is `Some`, print the address and break; otherwise sleep 500 ms and poll
again. Returns the configuration it broke on, or `none` if this observed
prefix of polls never saw one. -/
def readinessWait : List (Option NetConfig) → List ClientEvent × Option NetConfig
  | [] => ([], none)
  | none :: rest =>
      let r := readinessWait rest
      (ClientEvent.pollDelay 500 :: r.1, r.2)
  | some cfg :: _ => ([ClientEvent.gotIp cfg], some cfg)

/-- The whole client `task`: the readiness wait followed, only once a
configuration was observed, by the connect/exchange cycles. -/
def clientTask (polls : List (Option NetConfig)) (cycles : List CycleEnv) :
    List ClientEvent :=
  match readinessWait polls with
  | (evs, none) => evs
  | (evs, some _) => evs ++ cyclesRun cycles

/-- Recognizes a write operation (attempt or failure report) on the socket. -/
def isWriteEvent : ClientEvent → Bool
  | ClientEvent.writeAll _ _ => true
  | ClientEvent.writeError _ => true
  | _ => false

/-- Recognizes a read outcome (EOF, error report, or decoded body) on the socket. -/
def isReadEvent : ClientEvent → Bool
  | ClientEvent.readEOF => true
  | ClientEvent.readError _ => true
  | ClientEvent.printBody _ => true
  | _ => false

/-- Recognizes an error report (or panic) of the client loop. -/
def isErrorReport : ClientEvent → Bool
  | ClientEvent.connectError _ => true
  | ClientEvent.writeError _ => true
  | ClientEvent.readError _ => true
  | ClientEvent.panicked => true
  | _ => false

/-- A successful inner-loop iteration: write succeeded and the read
returned a positive number of bytes forming valid UTF-8. -/
def cleanExch : ExchEnv → Bool
  | ⟨OpResult.ok, ReadOutcome.ok (b :: bs)⟩ => validUtf8 (b :: bs)
  | _ => false

/-- The tasks of the example and the spawn list of `main`, lines 113-119:
the spawns of `net_task`, `task`, `pinger` and `scanner` are commented
out; only `connection` is spawned onto the executor. -/
inductive TaskId
  | net_task
  | task
  | pinger
  | scanner
  | connection
deriving DecidableEq

def spawnedTasks : List TaskId := [TaskId.connection]

/-- Per-run hardware state a seed could have been derived from (the HAL
random number generator `Rng::new(peripherals.RNG)` is available in
`main`). -/
structure RngSource where
  value : Nat
deriving DecidableEq

/-- The seed passed to `Stack::new` in `main`, line 102: the literal
`1234`, independent of any per-run hardware state. -/
def stackSeed (_rng : RngSource) : Nat := 1234

/-- The events emitted by a run of clean inner-loop iterations (each write
succeeded and each read returned a positive valid-UTF-8 chunk). -/
def cleanEvs : List ExchEnv → List ClientEvent
  | [] => []
  | x :: rest =>
    match x.readResult with
    | ReadOutcome.ok bytes =>
        ClientEvent.writeAll request_payload OpResult.ok ::
          ClientEvent.printBody bytes :: cleanEvs rest
    | ReadOutcome.err _ => []

/-- A Supervisor iteration whose collaborator operations all succeed. -/
def envAllOk : SupEnv :=
  ⟨WifiState.StaStarted, OpResult.ok, OpResult.ok, OpResult.ok⟩

/-- A Supervisor iteration where `set_configuration` fails (start and
connect would succeed). -/
def envCfgFail : SupEnv :=
  ⟨WifiState.StaStarted, OpResult.ok, OpResult.err 0, OpResult.ok⟩

/-- A Supervisor iteration where only the connect attempt fails. -/
def envConnFail : SupEnv :=
  ⟨WifiState.StaDisconnected, OpResult.ok, OpResult.ok, OpResult.err 0⟩

/-- Once `is_started` is `true`, no later iteration ever emits a start
event, whatever the environment does. -/
theorem connectionRun_started_no_start (ssid password : String) (envs : List SupEnv) :
    ((connectionRun ssid password envs true).1.countP isStartEvent) = 0 := by
  induction envs with
  | nil => simp [connectionRun]
  | cons env rest ih =>
    rcases hws : env.wifiState with _ | _ | _ | _ <;>
      rcases hc : env.setConfigResult with _ | e <;>
        simp [connectionRun, connectionStep, afterStart, hws, hc, isStartEvent,
              List.countP_cons, List.countP_append, ih]

/-- C1: over every observed prefix of the Supervisor's run containing at
least one iteration — whatever the wifi states and whatever the outcomes
of start, `set_configuration` and `connect` — the trace of the
`connection` task contains exactly one invocation of the interface start
operation: the local `is_started` flag prevents any second one. -/
theorem start_invoked_exactly_once (ssid password : String) (envs : List SupEnv)
    (h : envs ≠ []) :
    ((connectionRun ssid password envs false).1.countP isStartEvent) = 1 := by
  cases envs with
  | nil => exact absurd rfl h
  | cons env rest =>
    rcases hws : env.wifiState with _ | _ | _ | _ <;>
      rcases hs : env.startResult with _ | e <;>
        rcases hc : env.setConfigResult with _ | e' <;>
          simp [connectionRun, connectionStep, afterStart, hws, hs, hc, isStartEvent,
                List.countP_cons, List.countP_append, connectionRun_started_no_start]

/-- Witness for C1: a concrete two-iteration run with all operations
succeeding has exactly one start invocation. -/
theorem start_invoked_exactly_once_witness :
    ((connectionRun "ssid" "pw" [envAllOk, envAllOk] false).1.countP isStartEvent) = 1 :=
  start_invoked_exactly_once "ssid" "pw" [envAllOk, envAllOk] (by simp)

/-- C2 counterexample: an iteration whose start and connect would succeed
but whose `set_configuration` fails ends the Supervisor — the code calls
`device.set_configuration(&client_config).unwrap()`, and the `unwrap` of
the `Err` panics the task, so an error other than the one-time start does
terminate it. -/
theorem setConfig_failure_ends_supervisor :
    envCfgFail.startResult = OpResult.ok ∧
    envCfgFail.connectResult = OpResult.ok ∧
    (connectionRun "ssid" "pw" [envCfgFail] false).2 = none ∧
    SupEvent.panicked ∈ (connectionRun "ssid" "pw" [envCfgFail] false).1 := by
  refine ⟨rfl, rfl, rfl, ?_⟩
  simp [connectionRun, connectionStep, afterStart, envCfgFail]

/-- C2 amended: as long as the one-time start and every
`set_configuration` call succeed, the Supervisor never terminates —
in particular no failure of a connect attempt ever ends the task; it
always proceeds to the fixed retry delay and the next iteration. -/
theorem supervisor_never_terminates (ssid password : String) (envs : List SupEnv)
    (st : Bool)
    (h : ∀ env ∈ envs, env.startResult = OpResult.ok ∧ env.setConfigResult = OpResult.ok) :
    ((connectionRun ssid password envs st).2).isSome = true := by
  induction envs generalizing st with
  | nil => simp [connectionRun]
  | cons env rest ih =>
    obtain ⟨⟨hs, hc⟩, h'⟩ := List.forall_mem_cons.mp h
    have ihr := ih true h'
    cases st <;>
      simp [connectionRun, connectionStep, afterStart, hs, hc, ihr]

/-- Witness for C2 (amended): a concrete two-iteration run in which every
connect attempt fails is still alive at the end of the prefix. -/
theorem supervisor_never_terminates_witness :
    ((connectionRun "ssid" "pw" [envConnFail, envConnFail] false).2).isSome = true :=
  supervisor_never_terminates "ssid" "pw" [envConnFail, envConnFail] false (by decide)

/-- If no connect attempt of a well-formed trace succeeds, the radio layer
never reports `StaConnected`. -/
theorem consistent_all_fail_not_connected (envs : List SupEnv)
    (hfail : ∀ env ∈ envs, env.connectResult ≠ OpResult.ok)
    (hcons : consistentFrom false envs = true) :
    ∀ env ∈ envs, env.wifiState ≠ WifiState.StaConnected := by
  induction envs with
  | nil => simp
  | cons env rest ih =>
    obtain ⟨hf, hfail'⟩ := List.forall_mem_cons.mp hfail
    rw [consistentFrom, Bool.and_eq_true] at hcons
    obtain ⟨h1, h2⟩ := hcons
    simp only [hf, if_false, Bool.false_or] at h2
    intro x hx
    rcases List.mem_cons.mp hx with hx | hx
    · subst hx
      intro hws
      rw [if_pos hws] at h1
      exact Bool.false_ne_true h1
    · exact ih hfail' h2 x hx

/-- Auxiliary run lemma for C8, generalized over the `is_started` flag:
when the radio layer never reports `StaConnected` and start and
`set_configuration` always succeed while every connect attempt fails, the
Supervisor never suspends on the disassociation event, never observes a
successful connect, and emits the fixed retry delay once per iteration. -/
theorem connectionRun_all_fail_aux (ssid password : String) (envs : List SupEnv)
    (st : Bool)
    (hfail : ∀ env ∈ envs, env.connectResult ≠ OpResult.ok)
    (hstart : ∀ env ∈ envs, env.startResult = OpResult.ok)
    (hcfg : ∀ env ∈ envs, env.setConfigResult = OpResult.ok)
    (hns : ∀ env ∈ envs, env.wifiState ≠ WifiState.StaConnected) :
    SupEvent.awaitDisconnect ∉ (connectionRun ssid password envs st).1 ∧
    SupEvent.connectAttempt OpResult.ok ∉ (connectionRun ssid password envs st).1 ∧
    (connectionRun ssid password envs st).1.countP isRetryDelay = envs.length := by
  induction envs generalizing st with
  | nil => simp [connectionRun]
  | cons env rest ih =>
    obtain ⟨hf, hfail'⟩ := List.forall_mem_cons.mp hfail
    obtain ⟨hs, hstart'⟩ := List.forall_mem_cons.mp hstart
    obtain ⟨hc, hcfg'⟩ := List.forall_mem_cons.mp hcfg
    obtain ⟨hn, hns'⟩ := List.forall_mem_cons.mp hns
    obtain ⟨ih1, ih2, ih3⟩ := ih true hfail' hstart' hcfg' hns'
    rcases hcn : env.connectResult with _ | e
    · exact absurd hcn hf
    · rcases hws : env.wifiState with _ | _ | _ | _
      case StaConnected => exact absurd hws hn
      all_goals cases st <;>
        simp [connectionRun, connectionStep, afterStart, hws, hs, hc, hcn,
              isRetryDelay, List.countP_cons, List.countP_append, ih1, ih2, ih3]

/-- C8: if every connect attempt fails (and the radio layer, consistently,
only reports `StaConnected` after a successful connect), the Supervisor
never observes a successful association, never suspends on the
disassociation event — its only unbounded wait — and still waits the
fixed 1000 ms retry delay once per iteration before the next attempt. -/
theorem connect_always_fails_no_associate (ssid password : String) (envs : List SupEnv)
    (hfail : ∀ env ∈ envs, env.connectResult ≠ OpResult.ok)
    (hstart : ∀ env ∈ envs, env.startResult = OpResult.ok)
    (hcfg : ∀ env ∈ envs, env.setConfigResult = OpResult.ok)
    (hcons : consistentFrom false envs = true) :
    SupEvent.awaitDisconnect ∉ (connectionRun ssid password envs false).1 ∧
    SupEvent.connectAttempt OpResult.ok ∉ (connectionRun ssid password envs false).1 ∧
    (connectionRun ssid password envs false).1.countP isRetryDelay = envs.length :=
  connectionRun_all_fail_aux ssid password envs false hfail hstart hcfg
    (consistent_all_fail_not_connected envs hfail hcons)

/-- Witness for C8: a concrete two-iteration run whose connect attempts
both fail waits the retry delay twice and never suspends. -/
theorem connect_always_fails_no_associate_witness :
    SupEvent.awaitDisconnect ∉ (connectionRun "ssid" "pw" [envConnFail, envConnFail] false).1 ∧
    SupEvent.connectAttempt OpResult.ok ∉
      (connectionRun "ssid" "pw" [envConnFail, envConnFail] false).1 ∧
    (connectionRun "ssid" "pw" [envConnFail, envConnFail] false).1.countP isRetryDelay = 2 :=
  connect_always_fails_no_associate "ssid" "pw" [envConnFail, envConnFail]
    (by decide) (by decide) (by decide) (by decide)

/-- Auxiliary count lemma for C9, generalized over the `is_started` flag:
in a run whose start and `set_configuration` calls all succeed, the
configured credentials are applied exactly once per iteration. -/
theorem connectionRun_setconfig_count (ssid password : String) (envs : List SupEnv)
    (st : Bool)
    (hstart : ∀ env ∈ envs, env.startResult = OpResult.ok)
    (hcfg : ∀ env ∈ envs, env.setConfigResult = OpResult.ok) :
    (connectionRun ssid password envs st).1.countP (isSetConfigEvent ssid password)
      = envs.length := by
  induction envs generalizing st with
  | nil => simp [connectionRun]
  | cons env rest ih =>
    obtain ⟨hs, hstart'⟩ := List.forall_mem_cons.mp hstart
    obtain ⟨hc, hcfg'⟩ := List.forall_mem_cons.mp hcfg
    have ihr := ih true hstart' hcfg'
    rcases hws : env.wifiState with _ | _ | _ | _ <;> cases st <;>
      simp [connectionRun, connectionStep, afterStart, hws, hs, hc,
            isSetConfigEvent, List.countP_cons, List.countP_append, ihr]

/-- C9: on every iteration of the Supervisor loop that reaches the
reconnect path (here: every iteration of a run whose start and
`set_configuration` calls succeed), the configured credentials are
applied to the interface — exactly one `set_configuration` event with the
unchanged `(ssid, password)` pair per iteration. -/
theorem credentials_applied_every_iteration (ssid password : String) (envs : List SupEnv)
    (hstart : ∀ env ∈ envs, env.startResult = OpResult.ok)
    (hcfg : ∀ env ∈ envs, env.setConfigResult = OpResult.ok) :
    (connectionRun ssid password envs false).1.countP (isSetConfigEvent ssid password)
      = envs.length :=
  connectionRun_setconfig_count ssid password envs false hstart hcfg

/-- Witness for C9: a concrete three-iteration run (with a failing connect
in the middle) applies the credentials three times. -/
theorem credentials_applied_every_iteration_witness :
    (connectionRun "ssid" "pw" [envAllOk, envConnFail, envAllOk] false).1.countP
      (isSetConfigEvent "ssid" "pw") = 3 :=
  credentials_applied_every_iteration "ssid" "pw" [envAllOk, envConnFail, envAllOk]
    (by decide) (by decide)

/-- C4 counterexample: a positive read (one byte, `0xFF`) whose content is
not valid UTF-8 panics the Client Loop — `core::str::from_utf8(..)` fails
and the `unwrap()` terminates the task, so decoding is a fourth inner-loop
exit, contrary to the claim that decoding never terminates the task. -/
theorem invalid_utf8_read_panics :
    (innerLoop [⟨OpResult.ok, ReadOutcome.ok [255]⟩]).2 = InnerExit.panicked ∧
    ClientEvent.panicked ∈ (innerLoop [⟨OpResult.ok, ReadOutcome.ok [255]⟩]).1 ∧
    (cycleRun ⟨OpResult.ok, [⟨OpResult.ok, ReadOutcome.ok [255]⟩]⟩).2
      = CycleStatus.panicked := by
  decide

/-- C4 amended: every positive read whose bytes are valid UTF-8 is decoded
as text, reported, and the inner loop then repeats; a positive read of
bytes that are not valid UTF-8 panics the task (the `unwrap` of
`from_utf8`), so only valid-UTF-8 decoding never terminates it. -/
theorem valid_read_reported_and_repeats (env : ExchEnv) (rest : List ExchEnv)
    (bytes : List Nat)
    (hw : env.writeResult = OpResult.ok)
    (hr : env.readResult = ReadOutcome.ok bytes)
    (hne : bytes ≠ [])
    (hv : validUtf8 bytes = true) :
    innerLoop (env :: rest) =
      (ClientEvent.writeAll request_payload OpResult.ok ::
         ClientEvent.printBody bytes :: (innerLoop rest).1,
       (innerLoop rest).2) := by
  cases bytes with
  | nil => exact absurd rfl hne
  | cons b bs => simp [innerLoop, hw, hr, hv]

/-- Witness for C4 (amended): a concrete valid-UTF-8 read is reported and
the loop continues into the rest of the trace. -/
theorem valid_read_reported_and_repeats_witness :
    innerLoop [⟨OpResult.ok, ReadOutcome.ok [72, 105]⟩] =
      (ClientEvent.writeAll request_payload OpResult.ok ::
         ClientEvent.printBody [72, 105] :: (innerLoop []).1,
       (innerLoop []).2) :=
  valid_read_reported_and_repeats ⟨OpResult.ok, ReadOutcome.ok [72, 105]⟩ [] [72, 105]
    rfl rfl (by decide) (by decide)

/-- If every poll of `stack.config()` returns `None`, the readiness wait
only accumulates 500 ms poll delays and never breaks out. -/
theorem readinessWait_all_none (polls : List (Option NetConfig))
    (h : ∀ p ∈ polls, p = none) :
    readinessWait polls
      = (List.replicate polls.length (ClientEvent.pollDelay 500), none) := by
  induction polls with
  | nil => simp [readinessWait]
  | cons p rest ih =>
    obtain ⟨hp, h'⟩ := List.forall_mem_cons.mp h
    subst hp
    simp [readinessWait, ih h', List.replicate_succ]

/-- C5: as long as the network layer's configuration query keeps returning
`None`, the Client Loop stays in the readiness-poll phase: its trace
contains no socket creation and no connect attempt, whatever connect/
exchange cycles the transport would have offered. -/
theorem no_config_no_socket (polls : List (Option NetConfig)) (cycles : List CycleEnv)
    (h : ∀ p ∈ polls, p = none) :
    ClientEvent.openSocket ∉ clientTask polls cycles ∧
    ∀ ep r, ClientEvent.connectAttempt ep r ∉ clientTask polls cycles := by
  have hr := readinessWait_all_none polls h
  constructor
  · simp [clientTask, hr, List.mem_replicate]
  · intro ep r
    simp [clientTask, hr, List.mem_replicate]

/-- Witness for C5: two `None` polls followed by an available cycle
produce a trace without socket creation or connect attempt. -/
theorem no_config_no_socket_witness :
    ClientEvent.openSocket ∉ clientTask [none, none] [⟨OpResult.ok, []⟩] ∧
    ClientEvent.connectAttempt remote_endpoint OpResult.ok ∉
      clientTask [none, none] [⟨OpResult.ok, []⟩] :=
  ⟨(no_config_no_socket [none, none] [⟨OpResult.ok, []⟩] (by decide)).1,
   (no_config_no_socket [none, none] [⟨OpResult.ok, []⟩] (by decide)).2
     remote_endpoint OpResult.ok⟩

/-- C6: in every Client Loop cycle whose connect attempt fails, no write
and no read is performed on the socket — the cycle is abandoned
(`continue`) and the outer loop goes on to the next cycle, which starts
with the pacing delay. -/
theorem connect_failure_no_exchange (env : CycleEnv) (e : Nat) (rest : List CycleEnv)
    (h : env.connectResult = OpResult.err e) :
    (cycleRun env).1.countP isWriteEvent = 0 ∧
    (cycleRun env).1.countP isReadEvent = 0 ∧
    (cycleRun env).2 = CycleStatus.done ∧
    cyclesRun (env :: rest) = (cycleRun env).1 ++ cyclesRun rest := by
  refine ⟨?_, ?_, ?_, ?_⟩ <;>
    simp [cycleRun, cyclesRun, cyclePrefix, h, isWriteEvent, isReadEvent,
          List.countP_cons, List.countP_append]

/-- Witness for C6: a concrete failed-connect cycle (whose exchange oracle
would have offered a successful write and read) performs neither. -/
theorem connect_failure_no_exchange_witness :
    (cycleRun ⟨OpResult.err 7, [⟨OpResult.ok, ReadOutcome.ok [72]⟩]⟩).1.countP
        isWriteEvent = 0 ∧
    (cycleRun ⟨OpResult.err 7, [⟨OpResult.ok, ReadOutcome.ok [72]⟩]⟩).1.countP
        isReadEvent = 0 ∧
    (cycleRun ⟨OpResult.err 7, [⟨OpResult.ok, ReadOutcome.ok [72]⟩]⟩).2
        = CycleStatus.done ∧
    cyclesRun [⟨OpResult.err 7, [⟨OpResult.ok, ReadOutcome.ok [72]⟩]⟩] =
      (cycleRun ⟨OpResult.err 7, [⟨OpResult.ok, ReadOutcome.ok [72]⟩]⟩).1 ++ cyclesRun [] :=
  connect_failure_no_exchange ⟨OpResult.err 7, [⟨OpResult.ok, ReadOutcome.ok [72]⟩]⟩ 7 [] rfl

/-- After any prefix of clean exchanges, a read returning zero bytes ends
the inner loop as a clean EOF. -/
theorem innerLoop_clean_eof (pres rest : List ExchEnv)
    (hpre : ∀ x ∈ pres, cleanExch x = true) :
    innerLoop (pres ++ ⟨OpResult.ok, ReadOutcome.ok []⟩ :: rest) =
      (cleanEvs pres ++ [ClientEvent.writeAll request_payload OpResult.ok,
                         ClientEvent.readEOF],
       InnerExit.eof) := by
  induction pres with
  | nil => simp [innerLoop, cleanEvs]
  | cons x pres' ih =>
    obtain ⟨hx, hpre'⟩ := List.forall_mem_cons.mp hpre
    rcases x with ⟨wr, rr⟩
    rcases wr with _ | e
    · rcases rr with bytes | e
      · rcases bytes with _ | ⟨b, bs⟩
        · exact absurd hx (by simp [cleanExch])
        · have hv : validUtf8 (b :: bs) = true := by
            simpa [cleanExch] using hx
          simp [innerLoop, cleanEvs, hv, ih hpre']
      · exact absurd hx (by simp [cleanExch])
    · exact absurd hx (by simp [cleanExch])

/-- The events of a clean exchange prefix contain no error report. -/
theorem cleanEvs_no_error (pres : List ExchEnv) :
    (cleanEvs pres).countP isErrorReport = 0 := by
  induction pres with
  | nil => simp [cleanEvs]
  | cons x pres' ih =>
    rcases hrr : x.readResult with bytes | e <;>
      simp [cleanEvs, hrr, isErrorReport, List.countP_cons, ih]

/-- C7: in every Client Loop cycle in which, after clean exchanges, a read
returns `Ok(0)`, the inner exchange loop ends as a clean end-of-stream:
no error is reported in the cycle's exchange, the cycle completes, and the
outer loop proceeds to the next cycle after the pacing delay. -/
theorem read_zero_clean_eof (pres rest : List ExchEnv) (cs : List CycleEnv)
    (env : CycleEnv)
    (hpre : ∀ x ∈ pres, cleanExch x = true)
    (hconn : env.connectResult = OpResult.ok)
    (hex : env.exch = pres ++ ⟨OpResult.ok, ReadOutcome.ok []⟩ :: rest) :
    (innerLoop env.exch).2 = InnerExit.eof ∧
    (innerLoop env.exch).1.countP isErrorReport = 0 ∧
    (cycleRun env).2 = CycleStatus.done ∧
    cyclesRun (env :: cs) = (cycleRun env).1 ++ cyclesRun cs := by
  have hil := innerLoop_clean_eof pres rest hpre
  refine ⟨?_, ?_, ?_, ?_⟩ <;>
    simp [cycleRun, cyclesRun, hconn, hex, hil, isErrorReport,
          List.countP_append, List.countP_cons, cleanEvs_no_error]

/-- Witness for C7: a concrete cycle with one clean exchange followed by a
zero-byte read ends in a clean EOF and the outer loop continues. -/
theorem read_zero_clean_eof_witness :
    (innerLoop [⟨OpResult.ok, ReadOutcome.ok [72]⟩,
                ⟨OpResult.ok, ReadOutcome.ok []⟩]).2 = InnerExit.eof ∧
    (innerLoop [⟨OpResult.ok, ReadOutcome.ok [72]⟩,
                ⟨OpResult.ok, ReadOutcome.ok []⟩]).1.countP isErrorReport = 0 ∧
    (cycleRun ⟨OpResult.ok, [⟨OpResult.ok, ReadOutcome.ok [72]⟩,
                             ⟨OpResult.ok, ReadOutcome.ok []⟩]⟩).2 = CycleStatus.done ∧
    cyclesRun [⟨OpResult.ok, [⟨OpResult.ok, ReadOutcome.ok [72]⟩,
                              ⟨OpResult.ok, ReadOutcome.ok []⟩]⟩] =
      (cycleRun ⟨OpResult.ok, [⟨OpResult.ok, ReadOutcome.ok [72]⟩,
                               ⟨OpResult.ok, ReadOutcome.ok []⟩]⟩).1 ++ cyclesRun [] :=
  read_zero_clean_eof [⟨OpResult.ok, ReadOutcome.ok [72]⟩] [] []
    ⟨OpResult.ok, [⟨OpResult.ok, ReadOutcome.ok [72]⟩, ⟨OpResult.ok, ReadOutcome.ok []⟩]⟩
    (by decide) rfl rfl

/-- C3 counterexample: in `main`, the spawn of the Client Loop (`task`) is
commented out; only `connection` appears in the executor's spawn list, so
the two tasks are not both spawned. -/
theorem client_loop_not_spawned :
    TaskId.task ∉ spawnedTasks ∧ TaskId.connection ∈ spawnedTasks := by
  decide

/-- C3 amended: exactly one task is spawned onto the executor at startup —
the Supervisor (`connection`); the Client Loop (`task`), the stack runner
(`net_task`), `pinger` and `scanner` are all left unspawned (their spawn
calls are commented out). -/
theorem only_connection_spawned :
    spawnedTasks = [TaskId.connection] ∧
    TaskId.task ∉ spawnedTasks ∧ TaskId.net_task ∉ spawnedTasks ∧
    TaskId.pinger ∉ spawnedTasks ∧ TaskId.scanner ∉ spawnedTasks := by
  decide

/-- C10: the seed handed to `Stack::new` is the compile-time constant
`1234`: it does not depend on any per-run hardware randomness, so any two
runs (on any two devices) construct the stack with identical seed-derived
values. -/
theorem seed_constant_across_runs (r1 r2 : RngSource) :
    stackSeed r1 = 1234 ∧ stackSeed r1 = stackSeed r2 :=
  ⟨rfl, rfl⟩

end EmbassyDhcp
